import Mathlib

/-!
Verification of the sakura-rasa inference orchestration service.

Shallow embedding of the Python source:
  * `utils/throttle.py`   — per-client sliding-window rate limiter;
  * `utils/http_client.py` — resilient backend client (retry / backoff / classification);
  * `services/ai_provider.py` — provider resolution;
  * `routers/generate.py` — the `create_image` orchestration pipeline and
    `save_image` materializer (with base64 data-URL handling).

Times (`time.time()` values, latencies) are modelled as rationals; the
per-request clock is abstracted to a single elapsed reading `elapsed_ms`
(the value of `(time.time() - start_time) * 1000` at the measurement point).
Outcomes of network calls, provider invocations and file writes are supplied
by an environment record, so every control-flow branch of the source is a
total function of that environment.
-/

namespace SakuraRasa

/-! ## Throttle middleware (`utils/throttle.py`) -/

/-- Default of the `requests_per_minute` constructor argument of
`ThrottleMiddleware` (also the default of the `THROTTLE_RPM` env var in
`main.py`). -/
def defaultRequestsPerMinute : ℕ := 10

/-- Client-visible outcome of `ThrottleMiddleware.dispatch` for one request:
either an HTTP 429 with a detail string, or admission. -/
inductive ThrottleOutcome where
  | rejected (detail : String)
  | allowed
  deriving DecidableEq

/-- The 429 detail string built in `ThrottleMiddleware.dispatch`. -/
def throttleDetail (requests_per_minute : ℕ) : String :=
  "Rate limit exceeded. Maximum " ++ toString requests_per_minute ++
    " requests per minute."

/-- `ThrottleMiddleware._is_rate_limited`: filters the stored timestamp list
of the identity down to entries strictly newer than `current_time - 60`,
stores the filtered list back, and reports whether its length has reached
the ceiling.  Returns (limited?, new stored list). -/
def is_rate_limited (requests_per_minute : ℕ) (stored : List ℚ)
    (current_time : ℚ) : Bool × List ℚ :=
  let minute_ago := current_time - 60
  let user_requests := stored.filter (fun req_time => minute_ago < req_time)
  (decide (requests_per_minute ≤ user_requests.length), user_requests)

/-- The admission step of `ThrottleMiddleware.dispatch` for one identity:
if `_is_rate_limited` answers true, raise HTTP 429; otherwise append
`current_time` to the (already pruned) stored list and let the request
proceed.  The periodic `_cleanup_old_entries` sweep only removes entries the
filter above discards anyway, so it is not modelled separately. -/
def dispatch (requests_per_minute : ℕ) (stored : List ℚ)
    (current_time : ℚ) : ThrottleOutcome × List ℚ :=
  let r := is_rate_limited requests_per_minute stored current_time
  if r.1 then (.rejected (throttleDetail requests_per_minute), r.2)
  else (.allowed, r.2 ++ [current_time])

/-- **C2.** For every client identity (its stored timestamp list) and time
`current_time`, the admission check rejects the request with the 429 detail
naming the ceiling exactly when the count of previously recorded timestamps
within the trailing 60-second window before `current_time` is ≥ the
configured ceiling (default 10); otherwise the request is recorded and
allowed; and any recorded timestamp aged 60 seconds or more never counts
toward the ceiling (it is pruned from the stored window). -/
theorem throttle_sliding_window_admission (requests_per_minute : ℕ)
    (stored : List ℚ) (current_time : ℚ) :
    ((dispatch requests_per_minute stored current_time).1 =
        .rejected (throttleDetail requests_per_minute) ↔
      requests_per_minute ≤
        (stored.filter (fun t => current_time - 60 < t)).length) ∧
    ((dispatch requests_per_minute stored current_time).1 = .allowed ↔
      (stored.filter (fun t => current_time - 60 < t)).length <
        requests_per_minute) ∧
    ((dispatch requests_per_minute stored current_time).1 = .allowed →
      current_time ∈ (dispatch requests_per_minute stored current_time).2) ∧
    (∀ t, t ≤ current_time - 60 →
      t ∉ (dispatch requests_per_minute stored current_time).2) ∧
    defaultRequestsPerMinute = 10 := by
  by_cases hk : requests_per_minute ≤
      (stored.filter (fun t => current_time - 60 < t)).length
  · refine ⟨by simp [dispatch, is_rate_limited, hk], ?_, ?_, ?_, rfl⟩
    · simp only [dispatch, is_rate_limited]
      simp [hk]
    · intro h
      simp [dispatch, is_rate_limited, hk] at h
    · intro t ht
      simp only [dispatch, is_rate_limited]
      simp [hk, List.mem_filter]
      exact fun _ => ht
  · refine ⟨?_, ?_, ?_, ?_, rfl⟩
    · simp only [dispatch, is_rate_limited]
      simp [hk]
    · simp only [dispatch, is_rate_limited]
      simp [hk]
      omega
    · intro _
      simp [dispatch, is_rate_limited, hk]
    · intro t ht
      simp only [dispatch, is_rate_limited]
      simp [hk, List.mem_filter]
      refine ⟨fun _ => ht, fun heq => ?_⟩
      rw [heq] at ht
      linarith

/-- Witness for C2 at concrete inputs: with ceiling 2 and stored window
`[0, 30, 55]` at time 61, the request is rejected with the 429 detail, and
the stale timestamp 0 no longer counts (it is pruned from the window). -/
theorem throttle_sliding_window_admission_witness :
    (dispatch 2 [(0:ℚ), 30, 55] 61).1 = .rejected (throttleDetail 2) ∧
    (0:ℚ) ∉ (dispatch 2 [(0:ℚ), 30, 55] 61).2 := by
  have h := throttle_sliding_window_admission 2 [(0:ℚ), 30, 55] 61
  refine ⟨h.1.mpr ?_, h.2.2.2.1 0 ?_⟩
  · norm_num [List.filter]
  · norm_num

/-! ## Resilient backend client (`utils/http_client.py`) -/

/-- The JSON-dict shape flowing between `HTTPClient._request` and the router:
exactly the keys either side reads via `.get`.  `none` models an absent key. -/
structure BackendDict where
  error : Option String := none
  detail : Option String := none
  status : Option ℕ := none
  message : Option String := none
  has_credits : Option Bool := none
  available_credits : Option String := none
  deriving DecidableEq

/-- `d.get(key, other)` for string values: absent key gives the fallback. -/
def getStr (v : Option String) (fallback : String) : String := v.getD fallback

/-- `response_data.get("detail", response_data.get("error", default))`
as used in every error branch of `HTTPClient._request`. -/
def detailOrError (body : BackendDict) (default : String) : String :=
  getStr body.detail (getStr body.error default)

/-- The per-status classification of a received HTTP response performed in
the body of `HTTPClient._request` (lines 45-85): 200 returns the parsed body
unchanged, every other status is mapped to a constructed decision dict. -/
def classifyResponse (endpoint : String) (status : ℕ) (body : BackendDict) :
    BackendDict :=
  if status = 200 then body
  else if status = 401 then
    let error_msg := detailOrError body "Authentication failed"
    { error := some "Unauthorized", detail := some error_msg,
      status := some 401,
      message := some ("Authentication failed: " ++ error_msg) }
  else if status = 403 then
    let error_msg := detailOrError body "Access forbidden"
    { error := some "Forbidden", detail := some error_msg,
      status := some 403,
      message := some ("Insufficient credits or access denied: " ++ error_msg) }
  else if status = 404 then
    { error := some "Not Found",
      detail := some ("Endpoint not found: " ++ endpoint),
      status := some 404,
      message := some ("Backend endpoint " ++ endpoint ++ " not found") }
  else if 500 ≤ status then
    let error_msg := detailOrError body "Server error"
    { error := some "Backend Server Error", detail := some error_msg,
      status := some status,
      message := some ("Backend server error: " ++ error_msg) }
  else
    let error_msg := detailOrError body "Unknown error"
    { error := some ("Backend error (" ++ toString status ++ ")"),
      detail := some error_msg, status := some status,
      message := some ("Backend returned error: " ++ error_msg) }

/-- What one attempt of the `for attempt in range(self.max_retries)` loop
observes: either a well-formed HTTP response (any status, with parsed body),
or one of the exceptions the three `except` arms catch
(`aiohttp.ClientError`, `asyncio.TimeoutError`, any other exception). -/
inductive AttemptOutcome where
  | response (status : ℕ) (body : BackendDict)
  | clientError (msg : String)
  | timeoutError
  | otherError (msg : String)
  deriving DecidableEq

/-- True when the attempt raised instead of receiving a well-formed
response — the only outcomes the loop retries on. -/
def AttemptOutcome.isRaised : AttemptOutcome → Bool
  | .response _ _ => false
  | _ => true

/-- The exception message raised when the final attempt fails, per
`except` arm. -/
def finalRaiseMsg (max_retries : ℕ) (url : String) :
    AttemptOutcome → String
  | .clientError e =>
      "Network error after " ++ toString max_retries ++
        " attempts connecting to " ++ url ++ ": " ++ e
  | .timeoutError =>
      "Request timeout after " ++ toString max_retries ++ " attempts for " ++
        url
  | .otherError e =>
      "Request failed after " ++ toString max_retries ++ " attempts for " ++
        url ++ ": " ++ e
  | .response _ _ => ""

/-- Result of `HTTPClient._request`: a returned (classified) dict together
with the number of attempts consumed and the backoff delays slept, or a
raised exception with the delays slept before it. -/
inductive RequestResult where
  | ok (result : BackendDict) (attemptsUsed : ℕ) (delays : List ℚ)
  | raised (msg : String) (delays : List ℚ)
  deriving DecidableEq

/-- The retry loop of `HTTPClient._request`: at each `attempt`, a received
response returns its classification immediately; an exception on the last
attempt (`attempt == self.max_retries - 1`) re-raises; otherwise the loop
sleeps `self.retry_delay * (2 ** attempt)` and moves to the next attempt.
`fuel` is the number of loop iterations remaining (`max_retries - attempt`);
exhausting it reaches the `raise` after the loop. -/
def requestLoop (url endpoint : String) (retry_delay : ℚ) (max_retries : ℕ)
    (outcomes : ℕ → AttemptOutcome) :
    ℕ → ℕ → List ℚ → RequestResult
  | _, 0, delays => .raised "Request failed after all retries" delays
  | attempt, fuel + 1, delays =>
    match outcomes attempt with
    | .response status body =>
        .ok (classifyResponse endpoint status body) (attempt + 1) delays
    | failed =>
        if attempt = max_retries - 1 then
          .raised (finalRaiseMsg max_retries url failed) delays
        else
          requestLoop url endpoint retry_delay max_retries outcomes
            (attempt + 1) fuel (delays ++ [retry_delay * 2 ^ attempt])

/-- `HTTPClient._request` with the constructor configuration
`max_retries = 3`, `retry_delay = 1`, run against a sequence of attempt
outcomes. -/
def runRequest (url endpoint : String) (outcomes : ℕ → AttemptOutcome) :
    RequestResult :=
  requestLoop url endpoint 1 3 outcomes 0 3 []

/-- Closed-form characterization of `runRequest` by the first three attempt
outcomes: the first received response is classified and returned (after 0, 1
or 2 backoff sleeps of 1 and 2 time units); three raised attempts re-raise
the third exception after both sleeps. -/
theorem runRequest_eq (url endpoint : String)
    (outcomes : ℕ → AttemptOutcome) :
    runRequest url endpoint outcomes =
      match outcomes 0 with
      | .response s b => .ok (classifyResponse endpoint s b) 1 []
      | _ =>
        match outcomes 1 with
        | .response s b => .ok (classifyResponse endpoint s b) 2 [1]
        | _ =>
          match outcomes 2 with
          | .response s b => .ok (classifyResponse endpoint s b) 3 [1, 2]
          | f2 => .raised (finalRaiseMsg 3 url f2) [1, 2] := by
  rcases h0 : outcomes 0 with ⟨s0, b0⟩ | m0 | _ | m0 <;>
    rcases h1 : outcomes 1 with ⟨s1, b1⟩ | m1 | _ | m1 <;>
      rcases h2 : outcomes 2 with ⟨s2, b2⟩ | m2 | _ | m2 <;>
        simp [runRequest, requestLoop, h0, h1, h2]

/-- **C5.** Every backend call that receives a well-formed HTTP response
(any status) returns a classified decision dict in exactly one attempt, with
no retry delays and no raise; a 401 response yields the unauthorized
decision (`error = "Unauthorized"`, `status = 401`) after that single
attempt; and the client raises only when every one of its 3 attempts failed
with a raised exception (connectivity failure), never for a received
response. -/
theorem backend_response_single_attempt :
    (∀ url endpoint outcomes status body,
      outcomes 0 = AttemptOutcome.response status body →
      runRequest url endpoint outcomes =
        .ok (classifyResponse endpoint status body) 1 []) ∧
    (∀ endpoint body,
      (classifyResponse endpoint 401 body).error = some "Unauthorized" ∧
      (classifyResponse endpoint 401 body).status = some 401) ∧
    (∀ url endpoint outcomes msg delays,
      runRequest url endpoint outcomes = .raised msg delays →
      ∀ i < 3, (outcomes i).isRaised = true) := by
  refine ⟨?_, ?_, ?_⟩
  · intro url endpoint outcomes status body h
    simp [runRequest, requestLoop, h]
  · intro endpoint body
    norm_num [classifyResponse]
  · intro url endpoint outcomes msg delays h i hi
    rw [runRequest_eq] at h
    rcases h0 : outcomes 0 with ⟨s0, b0⟩ | m0 | _ | m0 <;>
      rcases h1 : outcomes 1 with ⟨s1, b1⟩ | m1 | _ | m1 <;>
        rcases h2 : outcomes 2 with ⟨s2, b2⟩ | m2 | _ | m2 <;>
          rw [h0, h1, h2] at h <;> simp at h <;>
            interval_cases i <;>
              simp [AttemptOutcome.isRaised, h0, h1, h2]

/-- Witness for C5: a single-attempt 401 response returns the classified
unauthorized decision with one attempt used and no delays. -/
theorem backend_response_single_attempt_witness :
    runRequest "http://localhost:8000" "/api/v1/auth/verify/"
        (fun _ => .response 401 {}) =
      .ok (classifyResponse "/api/v1/auth/verify/" 401 {}) 1 [] :=
  backend_response_single_attempt.1 "http://localhost:8000"
    "/api/v1/auth/verify/" (fun _ => .response 401 {}) 401 {} rfl

/-- **C6.** Retries happen only when an attempt raised (transport-level
failure), never for a received response: a successful `_request` used
1, 2 or 3 attempts with backoff delays `[]`, `[1]` or `[1, 2]` respectively
(starting at 1 time unit and doubling), every attempt before the successful
one having raised; a raising `_request` slept exactly the delays `[1, 2]`
with all 3 attempts raised; and in the concrete scenario where attempts 1
and 2 fail with a connection error and attempt 3 receives HTTP 200, the
overall call succeeds after exactly 2 delays, each strictly greater than
the previous. -/
theorem backend_retry_backoff :
    (∀ url endpoint outcomes d n ds,
      runRequest url endpoint outcomes = .ok d n ds →
      ((n = 1 ∧ ds = []) ∨ (n = 2 ∧ ds = [1]) ∨
        (n = 3 ∧ ds = [(1:ℚ), 2])) ∧
      (∀ i, i + 1 < n → (outcomes i).isRaised = true)) ∧
    (∀ url endpoint outcomes msg ds,
      runRequest url endpoint outcomes = .raised msg ds →
      ds = [(1:ℚ), 2] ∧ ∀ i < 3, (outcomes i).isRaised = true) ∧
    (∀ url endpoint body e1 e2,
      runRequest url endpoint
          (fun i => if i = 0 then .clientError e1
            else if i = 1 then .clientError e2
            else .response 200 body) =
        .ok body 3 [1, 2] ∧
      (1:ℚ) < 2) := by
  refine ⟨?_, ?_, ?_⟩
  · intro url endpoint outcomes d n ds h
    rw [runRequest_eq] at h
    rcases h0 : outcomes 0 with ⟨s0, b0⟩ | m0 | _ | m0 <;>
      rcases h1 : outcomes 1 with ⟨s1, b1⟩ | m1 | _ | m1 <;>
        rcases h2 : outcomes 2 with ⟨s2, b2⟩ | m2 | _ | m2 <;>
          rw [h0, h1, h2] at h <;> simp at h <;>
            obtain ⟨-, hn, hds⟩ := h <;> subst hn <;> subst hds <;>
              refine ⟨by norm_num, ?_⟩ <;> intro i hi <;>
                rcases i with - | - | - | i <;>
                  first
                    | exact absurd hi (by omega)
                    | simp [AttemptOutcome.isRaised, h0, h1, h2]
  · intro url endpoint outcomes msg ds h
    rw [runRequest_eq] at h
    rcases h0 : outcomes 0 with ⟨s0, b0⟩ | m0 | _ | m0 <;>
      rcases h1 : outcomes 1 with ⟨s1, b1⟩ | m1 | _ | m1 <;>
        rcases h2 : outcomes 2 with ⟨s2, b2⟩ | m2 | _ | m2 <;>
          rw [h0, h1, h2] at h <;> simp at h <;>
            obtain ⟨-, hds⟩ := h <;> subst hds <;>
              refine ⟨rfl, ?_⟩ <;> intro i hi <;>
                interval_cases i <;>
                  simp [AttemptOutcome.isRaised, h0, h1, h2]
  · intro url endpoint body e1 e2
    refine ⟨?_, by norm_num⟩
    rw [runRequest_eq]
    norm_num [classifyResponse]

/-- Witness for C6 at concrete inputs: two connection errors then a 200
response succeed with exactly the two increasing delays 1 and 2. -/
theorem backend_retry_backoff_witness :
    runRequest "http://localhost:8000" "/api/v1/credits/check/"
        (fun i => if i = 0 then .clientError "Cannot connect"
          else if i = 1 then .clientError "Cannot connect"
          else .response 200 {}) =
      .ok {} 3 [1, 2] ∧ (1:ℚ) < 2 :=
  backend_retry_backoff.2.2 "http://localhost:8000" "/api/v1/credits/check/"
    {} "Cannot connect" "Cannot connect"

/-! ## Provider gateway (`services/ai_provider.py`) and pipeline environment -/

/-- The Python exception classes distinguished by the handlers in
`routers/generate.py`: `ValueError` (configuration), `NotImplementedError`
(placeholder providers), `aiohttp.ClientError` (network), and any other
`Exception`. -/
inductive PyError where
  | valueError (msg : String)
  | notImplementedError (msg : String)
  | clientError (msg : String)
  | otherError (msg : String)
  deriving DecidableEq

/-- `str(e)` of a raised exception. -/
def PyError.text : PyError → String
  | .valueError m => m
  | .notImplementedError m => m
  | .clientError m => m
  | .otherError m => m

/-- `type(e).__name__` as printed by the outermost handler. -/
def PyError.kindName : PyError → String
  | .valueError _ => "ValueError"
  | .notImplementedError _ => "NotImplementedError"
  | .clientError _ => "ClientError"
  | .otherError _ => "Exception"

/-- Python's `str.lower()` (character-wise, as applied to provider names). -/
def pyLower (s : String) : String := ⟨s.data.map Char.toLower⟩

/-- The closed set of provider classes in the `providers` dict of
`get_ai_provider`. -/
inductive ProviderKind where
  | openai
  | sora
  | gemini
  | stability
  deriving DecidableEq

/-- `providers.get(provider_name)`: the key-to-class dict in
`get_ai_provider`. -/
def providersDict (provider_name : String) : Option ProviderKind :=
  if provider_name = "openai" then some .openai
  else if provider_name = "sora" then some .sora
  else if provider_name = "gemini" then some .gemini
  else if provider_name = "stability" then some .stability
  else none

/-- Environment of one `create_image` request: the request's fields together
with the outcome of every external effect the pipeline performs, in source
order.  `user_image` / `catalog_image` model whether an `UploadFile` was
supplied; `*_image_fetch` is the outcome of `get_image_data` on whichever
source is used for that side.  `provider_run` is the outcome of
`generate_image` when an implemented, credentialed provider is invoked (its
value is the returned image locator).  `persist` is the outcome of the I/O
inside `save_image`.  `elapsed_ms` abstracts `(time.time() - start_time) *
1000` at the measurement point and `timestamp` abstracts `int(time.time())`
in the artifact filename. -/
structure PipelineEnv where
  user_id : String
  catalog_id : String
  user_image : Bool
  user_image_url : Option String
  catalog_image : Bool
  catalog_image_url : Option String
  user_image_fetch : Except PyError Unit
  catalog_image_fetch : Except PyError Unit
  AI_PROVIDER : Option String
  OPENAI_API_KEY : Option String
  GOOGLE_API_KEY : Option String
  auth_call : Except String BackendDict
  credits_call : Except String BackendDict
  provider_run : Except PyError String
  persist : Except PyError Unit
  webhook : Except String Unit
  elapsed_ms : ℚ
  timestamp : ℕ

/-- `get_ai_provider()` (`services/ai_provider.py:314-329`) combined with
the provider constructors' credential checks: resolve
`os.getenv("AI_PROVIDER", "openai").lower()` in the providers dict, raise
`ValueError` for an unknown key, and let the resolved class's `__init__`
raise `ValueError` when its API key is absent (`OpenAIProvider`,
`GeminiProvider`); `SoraProvider` and `StabilityProvider` construct without
any credential check. -/
def get_ai_provider (env : PipelineEnv) : Except PyError ProviderKind :=
  let provider_name := pyLower (env.AI_PROVIDER.getD "openai")
  match providersDict provider_name with
  | none => .error (.valueError ("Unknown AI provider: " ++ provider_name))
  | some .openai =>
      if env.OPENAI_API_KEY.isNone then
        .error (.valueError "OPENAI_API_KEY not found in environment variables")
      else .ok .openai
  | some .gemini =>
      if env.GOOGLE_API_KEY.isNone then
        .error (.valueError "GOOGLE_API_KEY not found in environment variables")
      else .ok .gemini
  | some .sora => .ok .sora
  | some .stability => .ok .stability

/-- The `get_ai_provider()` + `ai_provider.generate_image(...)` calls inside
step 3 of `create_image`: resolution errors propagate; the placeholder
providers raise `NotImplementedError` from `generate_image`; an implemented
provider's invocation outcome comes from the environment. -/
def generateStage (env : PipelineEnv) : Except PyError String :=
  match get_ai_provider env with
  | .error e => .error e
  | .ok .sora => .error (.notImplementedError "Sora provider not yet implemented")
  | .ok .stability =>
      .error (.notImplementedError "Stability AI provider not yet implemented")
  | .ok _ => env.provider_run

/-! ## Orchestration pipeline (`routers/generate.py`, `create_image`) -/

/-- One audit record as written by `logger.log_request(user_id, catalog_id,
status, latency_ms, ai_provider, error)`. -/
structure AuditRecord where
  user_id : String
  catalog_id : String
  status : String
  latency_ms : ℚ
  ai_provider : String
  error : Option String := none
  deriving DecidableEq

/-- The client-facing outcome of `create_image`: the 200 `GenerateResponse`
or the `HTTPException` FastAPI converts into an error response. -/
inductive Response where
  | success (image_url : String) (latency_ms : ℚ)
  | httpError (statusCode : ℕ) (detail : String)
  deriving DecidableEq

/-- `os.getenv("AI_PROVIDER", "openai")` as read at the top of
`create_image` (note: without `.lower()`). -/
def providerName (env : PipelineEnv) : String := env.AI_PROVIDER.getD "openai"

/-- An `error`-outcome audit record written by a terminal failure branch. -/
def errRecord (env : PipelineEnv) (msg : String) : AuditRecord :=
  { user_id := env.user_id, catalog_id := env.catalog_id, status := "error",
    latency_ms := env.elapsed_ms, ai_provider := providerName env,
    error := some msg }

/-- Python's `a or b or default` over optional strings: an absent or empty
string falls through to the next alternative. -/
def orFalsy : Option String → String → String
  | some s, d => if s = "" then d else s
  | none, d => d

/-- The outermost `except Exception` handler of `create_image`
(lines 270-278): classify as an unexpected internal error, audit, and
return a generic 500. -/
def unexpectedExit (env : PipelineEnv) (e : PyError) :
    Response × List AuditRecord :=
  (.httpError 500 ("Internal server error: " ++ e.text),
   [errRecord env ("Unexpected error (" ++ e.kindName ++ "): " ++ e.text)])

/-- Input resolution for the user side (lines 105-115): an uploaded file or
a URL is fetched via `get_image_data` (a raised exception lands in the
outermost handler); with neither source an `HTTPException` 400 is raised
directly, which the `except HTTPException: raise` arm re-raises with no
audit record. -/
def resolveUserCheck (env : PipelineEnv) :
    Option (Response × List AuditRecord) :=
  if env.user_image then
    match env.user_image_fetch with
    | .error e => some (unexpectedExit env e)
    | .ok _ => none
  else
    match env.user_image_url with
    | some _ =>
      match env.user_image_fetch with
      | .error e => some (unexpectedExit env e)
      | .ok _ => none
    | none =>
      some (.httpError 400
        "Either user_image file or user_image_url must be provided", [])

/-- Input resolution for the catalog side (lines 117-127). -/
def resolveCatalogCheck (env : PipelineEnv) :
    Option (Response × List AuditRecord) :=
  if env.catalog_image then
    match env.catalog_image_fetch with
    | .error e => some (unexpectedExit env e)
    | .ok _ => none
  else
    match env.catalog_image_url with
    | some _ =>
      match env.catalog_image_fetch with
      | .error e => some (unexpectedExit env e)
      | .ok _ => none
    | none =>
      some (.httpError 400
        "Either catalog_image file or catalog_image_url must be provided", [])

/-- Step "input resolution" of `create_image` (lines 104-127): `some out`
is an early terminal outcome, `none` continues to auth. -/
def resolveCheck (env : PipelineEnv) : Option (Response × List AuditRecord) :=
  match resolveUserCheck env with
  | some out => some out
  | none => resolveCatalogCheck env

/-- Step 1, auth (lines 129-148): a raised backend call is a terminal 503
with one error record; a returned dict with `status == 401` or
`error == "Unauthorized"` is a terminal 401 with one error record; anything
else continues. -/
def authCheck (env : PipelineEnv) : Option (Response × List AuditRecord) :=
  match env.auth_call with
  | .error e =>
      some (.httpError 503
        ("Unable to verify authentication. Backend may be unavailable: " ++ e),
        [errRecord env ("Backend connection error during auth: " ++ e)])
  | .ok auth_result =>
      if auth_result.status = some 401 ∨
          auth_result.error = some "Unauthorized" then
        let error_detail := orFalsy auth_result.detail
          (orFalsy auth_result.message "Invalid user_id or api_key")
        some (.httpError 401 ("Authentication failed: " ++ error_detail),
          [errRecord env ("Unauthorized: " ++ error_detail)])
      else none

/-- Step 2, credits (lines 150-179): raised call ⇒ terminal 503; dict with
`status == 403` or `error == "Forbidden"` ⇒ terminal 403; dict whose
`has_credits` is absent or not `True` ⇒ terminal 403; else continue. -/
def creditsCheck (env : PipelineEnv) : Option (Response × List AuditRecord) :=
  match env.credits_call with
  | .error e =>
      some (.httpError 503
        ("Unable to check credits. Backend may be unavailable: " ++ e),
        [errRecord env ("Backend connection error during credit check: " ++ e)])
  | .ok credits_result =>
      if credits_result.status = some 403 ∨
          credits_result.error = some "Forbidden" then
        let error_detail := orFalsy credits_result.detail
          (orFalsy credits_result.message "Insufficient credits")
        some (.httpError 403 ("Insufficient credits: " ++ error_detail),
          [errRecord env ("Insufficient credits: " ++ error_detail)])
      else if credits_result.has_credits.getD false = false then
        let error_detail := orFalsy credits_result.detail
          (orFalsy credits_result.message "No credits available")
        let available_credits := credits_result.available_credits.getD "unknown"
        some (.httpError 403 ("Insufficient credits: " ++ error_detail ++
            ". Available credits: " ++ available_credits),
          [errRecord env ("No credits: " ++ error_detail ++ " (available: " ++
            available_credits ++ ")")])
      else none

/-- The artifact filename built at line 225: user_id, catalog_id and
`int(time.time())` joined by underscores, with a `.png` suffix. -/
def imageFilename (env : PipelineEnv) : String :=
  env.user_id ++ "_" ++ env.catalog_id ++ "_" ++ toString env.timestamp ++
    ".png"

/-- The public image URL built at line 227: the filename under `/media/`. -/
def imageUrl (env : PipelineEnv) : String := "/media/" ++ imageFilename env

/-- Steps 5-6, webhook and success response (lines 245-266): a raised
webhook is caught at the call site and logged as a `warning` record; the
success record and 200 response follow unconditionally. -/
def notifyAndRespond (env : PipelineEnv) : Response × List AuditRecord :=
  let successRecord : AuditRecord :=
    { user_id := env.user_id, catalog_id := env.catalog_id,
      status := "success", latency_ms := env.elapsed_ms,
      ai_provider := providerName env }
  match env.webhook with
  | .error e =>
      (.success (imageUrl env) env.elapsed_ms,
       [{ user_id := env.user_id, catalog_id := env.catalog_id,
          status := "warning", latency_ms := env.elapsed_ms,
          ai_provider := providerName env,
          error := some ("Webhook failed: " ++ e) }, successRecord])
  | .ok _ => (.success (imageUrl env) env.elapsed_ms, [successRecord])

/-- Step 4 onward, persistence (lines 223-266): `aiohttp.ClientError` ⇒
terminal 502; any other exception ⇒ terminal 500; success continues to the
webhook. -/
def persistOnward (env : PipelineEnv) : Response × List AuditRecord :=
  match env.persist with
  | .error (.clientError m) =>
      (.httpError 502 ("Failed to download generated image: " ++ m),
       [errRecord env ("Network error downloading image: " ++ m)])
  | .error e =>
      (.httpError 500 ("Failed to save image: " ++ e.text),
       [errRecord env ("Image save failed: " ++ e.text)])
  | .ok _ => notifyAndRespond env

/-- Step 3 onward, generation (lines 181-266): `ValueError` ⇒ terminal 500
through the distinct provider-configuration message path; any other
exception ⇒ terminal 500 through the generic generation-failed path;
success continues to persistence. -/
def generateOnward (env : PipelineEnv) : Response × List AuditRecord :=
  match generateStage env with
  | .error (.valueError m) =>
      (.httpError 500 ("AI provider configuration error: " ++ m ++
        ". Please check environment variables."),
       [errRecord env ("Configuration error: " ++ m)])
  | .error e =>
      (.httpError 500 ("Image generation failed: " ++ e.text),
       [errRecord env ("Image generation failed: " ++ e.text)])
  | .ok _ => persistOnward env

/-- The pipeline from the credits stage on. -/
def creditsOnward (env : PipelineEnv) : Response × List AuditRecord :=
  match creditsCheck env with
  | some out => out
  | none => generateOnward env

/-- The pipeline from the auth stage on. -/
def authOnward (env : PipelineEnv) : Response × List AuditRecord :=
  match authCheck env with
  | some out => out
  | none => creditsOnward env

/-- `create_image` (lines 89-278): input resolution, then auth, credits,
generation, persistence, webhook and response, producing the client-facing
response and the audit records written, in emission order. -/
def create_image (env : PipelineEnv) : Response × List AuditRecord :=
  match resolveCheck env with
  | some out => out
  | none => authOnward env

/-! ## Audit-record discipline of the pipeline -/

/-- The audit discipline of one terminal outcome: exactly one primary
(non-`warning`) record, at most one `warning` record, and every
`error`-outcome record carries the elapsed latency, the provider name and a
detail message. -/
def auditDiscipline (env : PipelineEnv) (recs : List AuditRecord) : Prop :=
  (recs.filter (fun r => r.status ≠ "warning")).length = 1 ∧
  (recs.filter (fun r => r.status = "warning")).length ≤ 1 ∧
  ∀ r ∈ recs, r.status = "error" →
    r.latency_ms = env.elapsed_ms ∧ r.ai_provider = providerName env ∧
    r.error.isSome = true

theorem auditDiscipline_notify (env : PipelineEnv) :
    auditDiscipline env (notifyAndRespond env).2 := by
  rcases hw : env.webhook with w | u <;>
    simp [notifyAndRespond, auditDiscipline, hw]

theorem auditDiscipline_persist (env : PipelineEnv) :
    auditDiscipline env (persistOnward env).2 := by
  rcases hp : env.persist with e | u
  · rcases e <;>
      simp [persistOnward, auditDiscipline, hp, errRecord, PyError.text]
  · simp only [persistOnward, hp]
    exact auditDiscipline_notify env

theorem auditDiscipline_generate (env : PipelineEnv) :
    auditDiscipline env (generateOnward env).2 := by
  rcases hg : generateStage env with e | u
  · rcases e <;>
      simp [generateOnward, auditDiscipline, hg, errRecord, PyError.text]
  · simp only [generateOnward, hg]
    exact auditDiscipline_persist env

theorem auditDiscipline_credits (env : PipelineEnv) :
    auditDiscipline env (creditsOnward env).2 := by
  rcases hc : env.credits_call with e | d
  · simp [creditsOnward, creditsCheck, hc, auditDiscipline, errRecord]
  · by_cases h1 : d.status = some 403 ∨ d.error = some "Forbidden"
    · simp [creditsOnward, creditsCheck, hc, h1, auditDiscipline, errRecord]
    · by_cases h2 : d.has_credits.getD false = false
      · simp [creditsOnward, creditsCheck, hc, h1, h2, auditDiscipline,
          errRecord]
      · simp only [creditsOnward, creditsCheck, hc, if_neg h1, if_neg h2]
        exact auditDiscipline_generate env

theorem auditDiscipline_auth (env : PipelineEnv) :
    auditDiscipline env (authOnward env).2 := by
  rcases ha : env.auth_call with e | d
  · simp [authOnward, authCheck, ha, auditDiscipline, errRecord]
  · by_cases h1 : d.status = some 401 ∨ d.error = some "Unauthorized"
    · simp [authOnward, authCheck, ha, h1, auditDiscipline, errRecord]
    · simp only [authOnward, authCheck, ha, if_neg h1]
      exact auditDiscipline_credits env

theorem auditDiscipline_unexpected (env : PipelineEnv) (e : PyError) :
    auditDiscipline env (unexpectedExit env e).2 := by
  simp [unexpectedExit, auditDiscipline, errRecord]

/-- Neither an uploaded user image nor a user image URL was supplied. -/
def userSideMissing (env : PipelineEnv) : Bool :=
  !env.user_image && env.user_image_url.isNone

/-- Neither an uploaded catalog image nor a catalog image URL was supplied. -/
def catalogSideMissing (env : PipelineEnv) : Bool :=
  !env.catalog_image && env.catalog_image_url.isNone

/-- The `get_image_data` call for the user side succeeded. -/
def userFetchOk (env : PipelineEnv) : Bool :=
  match env.user_image_fetch with
  | .ok _ => true
  | .error _ => false

/-- The request takes one of the two terminal 400 missing-input branches:
the user side has no source, or the user side resolves and the catalog side
has no source. -/
def missingInput400 (env : PipelineEnv) : Bool :=
  userSideMissing env || (userFetchOk env && catalogSideMissing env)

/-- **C1 (amended).** Every terminal path through `create_image` produces
exactly one client-facing response (structurally: the function returns one
`Response`), and — except for the two missing-input 400 branches — exactly
one primary (non-warning) audit record, with at most one additional warning
record, every error-outcome record carrying the elapsed latency, the
provider name and a human-readable detail.  The missing-input 400 branches,
which the claim also required to write one error record, instead return
their 400 response with zero audit records (the raised `HTTPException` is
re-raised by the outermost handler without logging). -/
theorem terminal_single_response_single_audit (env : PipelineEnv) :
    (missingInput400 env = false →
      auditDiscipline env (create_image env).2) ∧
    (missingInput400 env = true →
      (create_image env).2 = [] ∧
      ∃ d, (create_image env).1 = Response.httpError 400 d) := by
  constructor <;> intro hm <;>
    rcases hu : env.user_image with _ | _ <;>
      rcases hurl : env.user_image_url with _ | us <;>
        rcases huf : env.user_image_fetch with e | u <;>
          rcases hc : env.catalog_image with _ | _ <;>
            rcases hcurl : env.catalog_image_url with _ | cs <;>
              rcases hcf : env.catalog_image_fetch with e2 | u2 <;>
                first
                  | (revert hm
                     simp [missingInput400, userSideMissing,
                       catalogSideMissing, userFetchOk, hu, hurl, huf,
                       hc, hcurl, hcf]
                     done)
                  | (simp only [create_image, resolveCheck, resolveUserCheck,
                      resolveCatalogCheck, hu, hurl, huf, hc, hcurl, hcf]
                     first
                       | exact auditDiscipline_auth env
                       | exact auditDiscipline_unexpected env e
                       | exact auditDiscipline_unexpected env e2
                       | simp)

/-- A concrete fully-successful request environment: both images uploaded
and fetched, auth and credits pass, the openai provider is configured and
succeeds, persistence and webhook succeed. -/
def envSuccess : PipelineEnv :=
  { user_id := "u1", catalog_id := "c1",
    user_image := true, user_image_url := none,
    catalog_image := true, catalog_image_url := none,
    user_image_fetch := .ok (), catalog_image_fetch := .ok (),
    AI_PROVIDER := some "openai", OPENAI_API_KEY := some "sk-test",
    GOOGLE_API_KEY := none,
    auth_call := .ok {}, credits_call := .ok { has_credits := some true },
    provider_run := .ok "https://img.example/out.png",
    persist := .ok (), webhook := .ok (),
    elapsed_ms := 1234, timestamp := 1700000000 }

/-- Witness for C1 (amended) at a concrete input: the fully-successful
environment takes no missing-input branch and its terminal path satisfies
the audit discipline. -/
theorem terminal_single_response_single_audit_witness :
    missingInput400 envSuccess = false ∧
    auditDiscipline envSuccess (create_image envSuccess).2 :=
  ⟨rfl, (terminal_single_response_single_audit envSuccess).1 rfl⟩

/-- The successful environment with both user-image sources absent. -/
def envMissingInput : PipelineEnv :=
  { envSuccess with user_image := false, user_image_url := none }

/-- Counterexample to C1 as stated: at a concrete request missing both
user-image sources — a terminal failure of the input-resolution stage — the
pipeline returns its 400 response but writes zero audit records, not
exactly one error record. -/
theorem missing_input_branch_writes_no_audit_record :
    create_image envMissingInput =
      (.httpError 400 "Either user_image file or user_image_url must be provided",
        []) ∧
    missingInput400 envMissingInput = true :=
  ⟨rfl, rfl⟩

/-- **C3.** A request that passes input resolution, auth and credits and
succeeds at generation and persistence, but whose webhook call raises,
still returns status success with the populated image URL, and produces
exactly one warning audit record in addition to the success record — the
outcome is never downgraded to error. -/
theorem webhook_failure_never_downgrades (env : PipelineEnv) (w : String)
    (h0 : resolveCheck env = none) (h1 : authCheck env = none)
    (h2 : creditsCheck env = none) (u : String)
    (h3 : generateStage env = .ok u) (h4 : env.persist = .ok ())
    (h5 : env.webhook = .error w) :
    create_image env =
      (.success (imageUrl env) env.elapsed_ms,
       [{ user_id := env.user_id, catalog_id := env.catalog_id,
          status := "warning", latency_ms := env.elapsed_ms,
          ai_provider := providerName env,
          error := some ("Webhook failed: " ++ w) },
        { user_id := env.user_id, catalog_id := env.catalog_id,
          status := "success", latency_ms := env.elapsed_ms,
          ai_provider := providerName env, error := none }]) := by
  simp [create_image, authOnward, creditsOnward, generateOnward,
    persistOnward, notifyAndRespond, h0, h1, h2, h3, h4, h5]

/-- The successful environment whose webhook call raises. -/
def envWebhookFail : PipelineEnv :=
  { envSuccess with webhook := .error "connection reset" }

/-- Witness for C3 at a concrete input: the failing webhook leaves a
success response with populated image URL plus one warning and one success
record. -/
theorem webhook_failure_never_downgrades_witness :
    create_image envWebhookFail =
      (.success (imageUrl envWebhookFail) envWebhookFail.elapsed_ms,
       [{ user_id := envWebhookFail.user_id,
          catalog_id := envWebhookFail.catalog_id,
          status := "warning", latency_ms := envWebhookFail.elapsed_ms,
          ai_provider := providerName envWebhookFail,
          error := some ("Webhook failed: " ++ "connection reset") },
        { user_id := envWebhookFail.user_id,
          catalog_id := envWebhookFail.catalog_id,
          status := "success", latency_ms := envWebhookFail.elapsed_ms,
          ai_provider := providerName envWebhookFail, error := none }]) :=
  webhook_failure_never_downgrades envWebhookFail "connection reset"
    rfl rfl rfl "https://img.example/out.png" rfl rfl rfl

/-- **C4 (amended).** The pipeline terminates with a 401 auth error exactly
when the auth decision dict has `status == 401` or `error ==
"Unauthorized"`; for every other returned decision — including classified
non-success auth responses such as 403, 404 or 5xx — the auth check passes
and the pipeline proceeds to the credits stage. -/
theorem auth_rejection_criterion (env : PipelineEnv) (d : BackendDict)
    (h : env.auth_call = .ok d) :
    (¬(d.status = some 401 ∨ d.error = some "Unauthorized") →
      authCheck env = none ∧ authOnward env = creditsOnward env) ∧
    ((d.status = some 401 ∨ d.error = some "Unauthorized") →
      authOnward env =
        (.httpError 401 ("Authentication failed: " ++
            orFalsy d.detail (orFalsy d.message "Invalid user_id or api_key")),
         [errRecord env ("Unauthorized: " ++
            orFalsy d.detail (orFalsy d.message "Invalid user_id or api_key"))])) := by
  constructor
  · intro hna
    exact ⟨by simp [authCheck, h, hna], by simp [authOnward, authCheck, h, hna]⟩
  · intro hya
    simp [authOnward, authCheck, h, hya]

/-- The successful environment whose auth call returns a classified backend
5xx decision and whose credits call raises a connection error. -/
def envAuthBackend500 : PipelineEnv :=
  { envSuccess with
    auth_call := .ok { error := some "Backend Server Error",
                       detail := some "boom", status := some 500,
                       message := some "Backend server error: boom" },
    credits_call := .error "conn refused" }

/-- Counterexample to C4 as stated: at a concrete request whose auth call
returns a classified non-success decision (backend 500), the pipeline does
not terminate with a 401 auth error before the credits stage — it proceeds
to the credits stage and terminates there (503 from the credits call). -/
theorem classified_auth_error_reaches_credits_stage :
    create_image envAuthBackend500 =
      (.httpError 503
        "Unable to check credits. Backend may be unavailable: conn refused",
       [errRecord envAuthBackend500
         "Backend connection error during credit check: conn refused"]) :=
  rfl

/-- The successful environment whose auth call returns the classified 401
decision. -/
def envAuthReject : PipelineEnv :=
  { envSuccess with
    auth_call := .ok { error := some "Unauthorized", detail := some "bad key",
                       status := some 401,
                       message := some "Authentication failed: bad key" } }

/-- Witness for C4 (amended) at a concrete input: a classified 401 decision
terminates with the 401 response and one error record. -/
theorem auth_rejection_criterion_witness :
    authOnward envAuthReject =
      (.httpError 401 ("Authentication failed: " ++
          orFalsy (some "bad key")
            (orFalsy (some "Authentication failed: bad key")
              "Invalid user_id or api_key")),
       [errRecord envAuthReject ("Unauthorized: " ++
          orFalsy (some "bad key")
            (orFalsy (some "Authentication failed: bad key")
              "Invalid user_id or api_key"))]) :=
  (auth_rejection_criterion envAuthReject
    { error := some "Unauthorized", detail := some "bad key",
      status := some 401,
      message := some "Authentication failed: bad key" } rfl).2 (Or.inl rfl)

/-- The raised exception is an `aiohttp.ClientError`. -/
def PyError.isClientError : PyError → Bool
  | .clientError _ => true
  | _ => false

/-- **C8.** For every failure in the persist stage of a request that
reached it, a network failure (`aiohttp.ClientError`) while fetching the
generated artifact terminates the request with a 502 bad-gateway error, and
any other persistence failure (including local write failure) terminates it
with a 500 internal error — the two failure kinds are classified
distinctly. -/
theorem persist_failure_classification (env : PipelineEnv)
    (h0 : resolveCheck env = none) (h1 : authCheck env = none)
    (h2 : creditsCheck env = none) (u : String)
    (h3 : generateStage env = .ok u) :
    (∀ m, env.persist = .error (.clientError m) →
      create_image env =
        (.httpError 502 ("Failed to download generated image: " ++ m),
         [errRecord env ("Network error downloading image: " ++ m)])) ∧
    (∀ e, env.persist = .error e → e.isClientError = false →
      create_image env =
        (.httpError 500 ("Failed to save image: " ++ e.text),
         [errRecord env ("Image save failed: " ++ e.text)])) := by
  constructor
  · intro m hp
    simp [create_image, authOnward, creditsOnward, generateOnward,
      persistOnward, h0, h1, h2, h3, hp]
  · intro e hp hne
    rcases e with m | m | m | m
    · simp [create_image, authOnward, creditsOnward, generateOnward,
        persistOnward, PyError.text, h0, h1, h2, h3, hp]
    · simp [create_image, authOnward, creditsOnward, generateOnward,
        persistOnward, PyError.text, h0, h1, h2, h3, hp]
    · simp [PyError.isClientError] at hne
    · simp [create_image, authOnward, creditsOnward, generateOnward,
        persistOnward, PyError.text, h0, h1, h2, h3, hp]

/-- The successful environment whose persist step raises a network error
while downloading the generated artifact. -/
def envPersistNet : PipelineEnv :=
  { envSuccess with persist := .error (.clientError "connection timeout") }

/-- Witness for C8 at a concrete input: a `ClientError` during persistence
yields the 502 bad-gateway terminal outcome. -/
theorem persist_failure_classification_witness :
    create_image envPersistNet =
      (.httpError 502
        ("Failed to download generated image: " ++ "connection timeout"),
       [errRecord envPersistNet
         ("Network error downloading image: " ++ "connection timeout")]) :=
  (persist_failure_classification envPersistNet rfl rfl rfl
    "https://img.example/out.png" rfl).1 "connection timeout" rfl

/-- **C10.** For every credits-check response classified as success
(a returned body dict) whose `has_credits` field is absent or not `True`,
the pipeline terminates with a 403 insufficient-credits error carrying the
"Insufficient credits: " detail and exactly one error audit record — the
request never reaches the generation stage without `has_credits` explicitly
true. -/
theorem credits_absent_defaults_to_denial (env : PipelineEnv)
    (d : BackendDict) (h0 : resolveCheck env = none)
    (h1 : authCheck env = none) (hc : env.credits_call = .ok d)
    (hd : d.has_credits ≠ some true) :
    ∃ s, (create_image env).1 =
        .httpError 403 ("Insufficient credits: " ++ s) ∧
      ∃ r, (create_image env).2 = [r] ∧ r.status = "error" ∧
        r.latency_ms = env.elapsed_ms ∧ r.error.isSome = true := by
  have hgd : d.has_credits.getD false = false := by
    rcases hdc : d.has_credits with _ | b
    · rfl
    · rcases b
      · rfl
      · exact absurd hdc hd
  by_cases h403 : d.status = some 403 ∨ d.error = some "Forbidden"
  · refine ⟨orFalsy d.detail (orFalsy d.message "Insufficient credits"),
      ?_, errRecord env ("Insufficient credits: " ++
        orFalsy d.detail (orFalsy d.message "Insufficient credits")),
      ?_, rfl, rfl, rfl⟩ <;>
      simp [create_image, authOnward, creditsOnward, creditsCheck,
        h0, h1, hc, h403]
  · refine ⟨orFalsy d.detail (orFalsy d.message "No credits available") ++
      (". Available credits: " ++ d.available_credits.getD "unknown"),
      ?_, errRecord env ("No credits: " ++
        orFalsy d.detail (orFalsy d.message "No credits available") ++
        " (available: " ++ d.available_credits.getD "unknown" ++ ")"),
      ?_, rfl, rfl, rfl⟩ <;>
      simp [create_image, authOnward, creditsOnward, creditsCheck,
        h0, h1, hc, h403, hgd, String.append_assoc]

/-- The successful environment whose (HTTP 200) credits body omits the
`has_credits` field entirely. -/
def envNoCreditsField : PipelineEnv :=
  { envSuccess with credits_call := .ok {} }

/-- Witness for C10 at a concrete input: a success-classified credits body
with no `has_credits` key terminates with the 403 insufficient-credits
error and one error record. -/
theorem credits_absent_defaults_to_denial_witness :
    ∃ s, (create_image envNoCreditsField).1 =
        .httpError 403 ("Insufficient credits: " ++ s) ∧
      ∃ r, (create_image envNoCreditsField).2 = [r] ∧ r.status = "error" ∧
        r.latency_ms = envNoCreditsField.elapsed_ms ∧
        r.error.isSome = true :=
  credits_absent_defaults_to_denial envNoCreditsField {} rfl rfl rfl
    (by simp)

/-- **C7 (amended).** A configuration key naming an unknown provider, and a
resolvable provider (`openai`, `gemini`) whose required credential is
absent, make provider resolution fail with a configuration error
(`ValueError`), which the pipeline maps to a terminal 500 through the
distinct provider-configuration message path.  The unimplemented providers
(`sora`, `stability`), however, resolve successfully and fail only at
generation time with `NotImplementedError`, which the pipeline maps to the
generic generation-failed 500 path, not the configuration path. -/
theorem provider_configuration_errors (env : PipelineEnv) :
    (∀ m, generateStage env = .error (.valueError m) →
      generateOnward env =
        (.httpError 500 ("AI provider configuration error: " ++ m ++
          ". Please check environment variables."),
         [errRecord env ("Configuration error: " ++ m)])) ∧
    (providersDict (pyLower (env.AI_PROVIDER.getD "openai")) = none →
      generateStage env = .error (.valueError
        ("Unknown AI provider: " ++ pyLower (env.AI_PROVIDER.getD "openai")))) ∧
    (pyLower (env.AI_PROVIDER.getD "openai") = "openai" →
      env.OPENAI_API_KEY = none →
      generateStage env = .error (.valueError
        "OPENAI_API_KEY not found in environment variables")) ∧
    (pyLower (env.AI_PROVIDER.getD "openai") = "gemini" →
      env.GOOGLE_API_KEY = none →
      generateStage env = .error (.valueError
        "GOOGLE_API_KEY not found in environment variables")) ∧
    (pyLower (env.AI_PROVIDER.getD "openai") = "sora" →
      generateOnward env =
        (.httpError 500
          "Image generation failed: Sora provider not yet implemented",
         [errRecord env
           "Image generation failed: Sora provider not yet implemented"])) ∧
    (pyLower (env.AI_PROVIDER.getD "openai") = "stability" →
      generateOnward env =
        (.httpError 500
          "Image generation failed: Stability AI provider not yet implemented",
         [errRecord env
           "Image generation failed: Stability AI provider not yet implemented"])) := by
  refine ⟨?_, ?_, ?_, ?_, ?_, ?_⟩
  · intro m hg
    simp [generateOnward, hg]
  · intro hn
    simp [generateStage, get_ai_provider, hn]
  · intro hp hk
    simp [generateStage, get_ai_provider, providersDict, hp, hk]
  · intro hp hk
    simp [generateStage, get_ai_provider, providersDict, hp, hk]
  · intro hp
    simp [generateOnward, generateStage, get_ai_provider, providersDict,
      hp, PyError.text]
  · intro hp
    simp [generateOnward, generateStage, get_ai_provider, providersDict,
      hp, PyError.text]

/-- The successful environment configured with the unimplemented provider
key `sora`. -/
def envSora : PipelineEnv :=
  { envSuccess with AI_PROVIDER := some "sora" }

/-- Counterexample to C7 as stated: at the concrete configuration key
`sora` — an unimplemented provider — provider resolution succeeds rather
than failing with a configuration error, and the pipeline terminates
through the generic generation-failed message path, not the distinct
provider-configuration path. -/
theorem unimplemented_provider_resolves_successfully :
    get_ai_provider envSora = .ok ProviderKind.sora ∧
    create_image envSora =
      (.httpError 500
        "Image generation failed: Sora provider not yet implemented",
       [errRecord envSora
         "Image generation failed: Sora provider not yet implemented"]) :=
  ⟨rfl, rfl⟩

/-- The successful environment with the openai key removed. -/
def envNoKey : PipelineEnv :=
  { envSuccess with OPENAI_API_KEY := none }

/-- Witness for C7 (amended) at a concrete input: the openai provider with
its credential absent fails resolution with the configuration
`ValueError`. -/
theorem provider_configuration_errors_witness :
    generateStage envNoKey = .error (.valueError
      "OPENAI_API_KEY not found in environment variables") :=
  (provider_configuration_errors envNoKey).2.2.1 rfl rfl

/-! ## Image materializer (`save_image`, base64 data URLs) -/

/-- The standard base64 alphabet used by Python's `base64` module. -/
def b64Alphabet : List Char :=
  "ABCDEFGHIJKLMNOPQRSTUVWXYZabcdefghijklmnopqrstuvwxyz0123456789+/".toList

/-- The alphabet character of a 6-bit value. -/
def charOfSextet (n : ℕ) : Char := b64Alphabet.getD n '='

/-- The 6-bit value of an alphabet character. -/
def sextetOfChar (c : Char) : ℕ := b64Alphabet.indexOf c

/-- Standard base64 encoding of a byte sequence (values < 256), three bytes
to four characters, `'='`-padded — the encoding whose output the Imagen
path embeds in its `data:image/png;base64,` locator and which Python's
`base64.b64decode` inverts. -/
def b64encode : List ℕ → List Char
  | [] => []
  | [a] => [charOfSextet (a / 4), charOfSextet (a % 4 * 16), '=', '=']
  | [a, b] => [charOfSextet (a / 4), charOfSextet (a % 4 * 16 + b / 16),
      charOfSextet (b % 16 * 4), '=']
  | a :: b :: c :: rest =>
      charOfSextet (a / 4) :: charOfSextet (a % 4 * 16 + b / 16) ::
        charOfSextet (b % 16 * 4 + c / 64) :: charOfSextet (c % 64) ::
        b64encode rest

/-- `base64.b64decode`: four characters back to three bytes, with `'='`
padding ending the data. -/
def b64decode : List Char → List ℕ
  | c1 :: c2 :: c3 :: c4 :: rest =>
      let s1 := sextetOfChar c1
      let s2 := sextetOfChar c2
      if c3 = '=' then [s1 * 4 + s2 / 16]
      else
        let s3 := sextetOfChar c3
        if c4 = '=' then [s1 * 4 + s2 / 16, s2 % 16 * 16 + s3 / 4]
        else (s1 * 4 + s2 / 16) :: (s2 % 16 * 16 + s3 / 4) ::
          (s3 % 4 * 64 + sextetOfChar c4) :: b64decode rest
  | _ => []

theorem sextet_charOf : ∀ s < 64, sextetOfChar (charOfSextet s) = s := by
  decide

theorem charOfSextet_ne_pad : ∀ s < 64, charOfSextet s ≠ '=' := by
  decide

theorem b64decode_encode (bs : List ℕ) (h : ∀ b ∈ bs, b < 256) :
    b64decode (b64encode bs) = bs := by
  match bs with
  | [] => simp [b64encode, b64decode]
  | [a] =>
    have ha : a < 256 := h a (by simp)
    have h1 := sextet_charOf (a / 4) (by omega)
    have h2 := sextet_charOf (a % 4 * 16) (by omega)
    simp only [b64encode, b64decode, h1, h2, ite_true, ite_false,
      List.cons.injEq, and_true]
    omega
  | [a, b] =>
    have ha : a < 256 := h a (by simp)
    have hb : b < 256 := h b (by simp)
    have h1 := sextet_charOf (a / 4) (by omega)
    have h2 := sextet_charOf (a % 4 * 16 + b / 16) (by omega)
    have h3 := sextet_charOf (b % 16 * 4) (by omega)
    have hne := charOfSextet_ne_pad (b % 16 * 4) (by omega)
    simp only [b64encode, b64decode, h1, h2, h3, hne, ite_true, ite_false,
      List.cons.injEq, and_true]
    exact ⟨by omega, by omega⟩
  | a :: b :: c :: rest =>
    have ha : a < 256 := h a (by simp)
    have hb : b < 256 := h b (by simp)
    have hc : c < 256 := h c (by simp)
    have ih := b64decode_encode rest (fun x hx => h x (by simp [hx]))
    have h1 := sextet_charOf (a / 4) (by omega)
    have h2 := sextet_charOf (a % 4 * 16 + b / 16) (by omega)
    have h3 := sextet_charOf (b % 16 * 4 + c / 64) (by omega)
    have h4 := sextet_charOf (c % 64) (by omega)
    have hne3 := charOfSextet_ne_pad (b % 16 * 4 + c / 64) (by omega)
    have hne4 := charOfSextet_ne_pad (c % 64) (by omega)
    simp only [b64encode, b64decode, h1, h2, h3, h4, hne3, hne4,
      ite_true, ite_false, ih, List.cons.injEq, and_true]
    exact ⟨by omega, by omega, by omega⟩

/-- The marker of the data-URL check
`image_url_or_data.startswith("data:image")` (line 74). -/
def dataImageMark : List Char := "data:image".toList

/-- The data-URL preamble the Imagen path prepends to its base64 payload
(`services/ai_provider.py:242`). -/
def dataUrlPreamble : List Char := "data:image/png;base64,".toList

/-- Python's `s.split(",", 1)[1]`: everything after the first comma, or
`none` when the string has no comma (where the tuple unpacking in
`save_image` would raise). -/
def afterFirstComma : List Char → Option (List Char)
  | [] => none
  | c :: rest => if c = ',' then some rest else afterFirstComma rest

/-- `save_image` (`routers/generate.py:67-86`), modelled on the bytes it
writes to the artifact file: a locator starting with `data:image` is split
at its first comma and the tail base64-decoded; any other locator is
fetched over the network (`download_image`) and written byte-for-byte.
`fetch` supplies the bytes `download_image` returns for a URL. -/
def save_image (image_url_or_data : List Char)
    (fetch : List Char → List ℕ) : Option (List ℕ) :=
  if dataImageMark.isPrefixOf image_url_or_data then
    match afterFirstComma image_url_or_data with
    | some encoded => some (b64decode encoded)
    | none => none
  else some (fetch image_url_or_data)

theorem afterFirstComma_preamble (enc : List Char) :
    afterFirstComma (dataUrlPreamble ++ enc) = some enc := rfl

theorem mark_isPrefixOf_preamble (x : List Char) :
    dataImageMark.isPrefixOf (dataUrlPreamble ++ x) = true := rfl

/-- **C9.** For every byte sequence, materializing the inline base64
data-URL locator encoding those bytes and materializing a remote-URL
locator whose fetch returns those same bytes both produce local artifacts
whose contents are byte-identical to each other and to the underlying
bytes. -/
theorem materialize_roundtrip (bytes : List ℕ) (h : ∀ b ∈ bytes, b < 256)
    (url : List Char) (hurl : dataImageMark.isPrefixOf url = false)
    (fetch : List Char → List ℕ) (hf : fetch url = bytes) :
    save_image (dataUrlPreamble ++ b64encode bytes) fetch = some bytes ∧
    save_image url fetch = some bytes := by
  constructor
  · rw [save_image, mark_isPrefixOf_preamble, afterFirstComma_preamble]
    simp [b64decode_encode bytes h]
  · simp [save_image, hurl, hf]

/-- Witness for C9 at a concrete input: the PNG-magic byte sequence
round-trips through both the inline data-URL path and the remote-URL
path of `save_image`. -/
theorem materialize_roundtrip_witness :
    save_image (dataUrlPreamble ++ b64encode [137, 80, 78, 71])
        (fun _ => [137, 80, 78, 71]) = some [137, 80, 78, 71] ∧
    save_image ("https://img.example/out.png".toList)
        (fun _ => [137, 80, 78, 71]) = some [137, 80, 78, 71] :=
  materialize_roundtrip [137, 80, 78, 71] (by decide)
    ("https://img.example/out.png".toList) (by decide)
    (fun _ => [137, 80, 78, 71]) rfl

end SakuraRasa
